import Mathlib

/- Formal model of the MyRustLink core (connection manager, entity-event
classifier, map-marker poller, event broadcaster and connection registry),
translated from src/rustplus/index.js, src/rustplus/mapPoller.js and
src/rustplus/broadcaster.js.  JavaScript numbers are modelled as rationals
where fractional arithmetic occurs and as integers elsewhere; JavaScript
Map objects are modelled as association lists or as functions to Option;
event emission is modelled by returning the list of emitted events. -/

/- ------------------------------------------------------------------ -/
/- Entity type constants (rustplus.proto AppEntityType enum), from
   src/rustplus/index.js ENTITY_TYPE. -/
/- ------------------------------------------------------------------ -/

/-- Entity type id for a smart switch. -/
def ENTITY_TYPE.SWITCH : ℕ := 1

/-- Entity type id for a smart alarm. -/
def ENTITY_TYPE.ALARM : ℕ := 2

/-- Entity type id for a storage monitor. -/
def ENTITY_TYPE.STORAGE_MONITOR : ℕ := 3

/- ------------------------------------------------------------------ -/
/- Entity changed payloads and classified game events. -/
/- ------------------------------------------------------------------ -/

/-- One slot entry of an AppEntityPayload items array. -/
structure AppItem where
  itemId : ℤ
  quantity : ℤ
  itemIsBlueprint : Bool
deriving DecidableEq

/-- Shape of an AppEntityChanged payload as seen by _handleEntityChanged.
A field that is absent (undefined/null on the wire) is modelled as none.
The items field is an Option so that isSome models the
Array.isArray(payload.items) test; the length >= 0 conjunct of the source
is always true and is dropped. -/
structure EntityPayload where
  value : Option Bool
  items : Option (List AppItem)
  capacity : Option ℤ
deriving DecidableEq

/-- Typed game events emitted by RustPlusConnection for an entityChanged
broadcast (switchChanged, alarmTriggered, storageUpdated). -/
inductive GameEvent where
  | switchChanged (entityId : ℤ) (value : Bool)
  | alarmTriggered (entityId : ℤ)
  | storageUpdated (entityId : ℤ) (items : List AppItem) (capacity : ℤ)
deriving DecidableEq

/-- Model of RustPlusConnection._handleEntityChanged.  The entity type
cache is an association list from entity id to ENTITY_TYPE code.  Returns
the list of events emitted, in emission order:
  - null payload: no event;
  - cached type STORAGE_MONITOR, or items array present together with a
    non-null capacity: one storageUpdated event (items defaulted to [],
    capacity defaulted to 0, as payload.items || [] and
    payload.capacity || 0 in the source);
  - otherwise, when a value field is present: switchChanged only for a
    cached SWITCH, alarmTriggered only for a cached ALARM, and for an
    unknown type switchChanged always plus alarmTriggered exactly when
    value === true;
  - otherwise no event. -/
def handleEntityChanged (cache : List (ℤ × ℕ)) (entityId : ℤ)
    (payload : Option EntityPayload) : List GameEvent :=
  match payload with
  | none => []
  | some p =>
    if cache.lookup entityId = some ENTITY_TYPE.STORAGE_MONITOR
        ∨ (p.items.isSome ∧ p.capacity.isSome) then
      [GameEvent.storageUpdated entityId (p.items.getD []) (p.capacity.getD 0)]
    else if p.value.isSome then
      if cache.lookup entityId = some ENTITY_TYPE.SWITCH then
        [GameEvent.switchChanged entityId (p.value.getD false)]
      else if cache.lookup entityId = some ENTITY_TYPE.ALARM then
        [GameEvent.alarmTriggered entityId]
      else
        GameEvent.switchChanged entityId (p.value.getD false)
          :: (if p.value = some true then [GameEvent.alarmTriggered entityId] else [])
    else []

/- ------------------------------------------------------------------ -/
/- Reconnection configuration and the connection lifecycle machine. -/
/- ------------------------------------------------------------------ -/

/-- Reconnection settings of a RustPlusConnection (after merging with
RECONNECT_DEFAULTS in the constructor). -/
structure ReconnectCfg where
  initialDelayMs : ℚ
  backoffMultiplier : ℚ
  maxDelayMs : ℚ
  maxRetries : ℕ
deriving DecidableEq

/-- RECONNECT_DEFAULTS from src/rustplus/index.js: 5000 ms initial delay,
multiplier 1.5 (= 3/2 exactly, both as a rational and as a double),
60000 ms cap, 10 retries. -/
def RECONNECT_DEFAULTS : ReconnectCfg :=
  { initialDelayMs := 5000
    backoffMultiplier := 3/2
    maxDelayMs := 60000
    maxRetries := 10 }

/-- Model of RustPlusConnection._getReconnectDelay: exponential backoff
initialDelayMs * backoffMultiplier ^ attempt, capped at maxDelayMs. -/
def getReconnectDelay (cfg : ReconnectCfg) (attempt : ℕ) : ℚ :=
  min (cfg.initialDelayMs * cfg.backoffMultiplier ^ attempt) cfg.maxDelayMs

/-- Written from the words of the specification (section 4.1): delay =
min(initialDelay x multiplier^attempt, maxDelay).  Used to compare the
source formula against the specified one. -/
def specReconnectDelay (initialDelay multiplier maxDelay : ℚ) (attempt : ℕ) : ℚ :=
  min (initialDelay * multiplier ^ attempt) maxDelay

/-- Mutable lifecycle state of a RustPlusConnection:
_intentionalClose, _reconnectAttempt, whether _reconnectTimer is non-null,
and _isConnected. -/
structure ConnState where
  intentionalClose : Bool
  reconnectAttempt : ℕ
  timerPending : Bool
  isConnected : Bool
deriving DecidableEq

/-- Initial lifecycle state set up by the constructor. -/
def initialConnState : ConnState :=
  { intentionalClose := false
    reconnectAttempt := 0
    timerPending := false
    isConnected := false }

/-- Events that drive a RustPlusConnection: the two public lifecycle
methods, the transport connected/disconnected callbacks, and the firing
of a pending reconnect timer. -/
inductive ConnEvent where
  | userConnect
  | userDisconnect
  | transportConnected
  | transportDisconnected
  | timerFire
deriving DecidableEq

/-- Observable actions of the connection machine: the lifecycle events it
emits, plus connectStarted marking every execution of the connect() body
(a fresh transport handshake being initiated). -/
inductive ConnEmit where
  | connected
  | disconnected (intentional : Bool)
  | reconnecting (attempt : ℕ) (delayMs : ℚ)
  | reconnectFailed (attempts : ℕ)
  | connectStarted
deriving DecidableEq

/-- Body of connect() (success path): clears any pending reconnect timer,
clears the intentional-close flag, creates a fresh client and starts the
handshake (recorded as connectStarted). -/
def connectBody (s : ConnState) : ConnState × List ConnEmit :=
  ({ s with timerPending := false, intentionalClose := false },
   [ConnEmit.connectStarted])

/-- Model of RustPlusConnection._scheduleReconnect.  When maxRetries > 0
and the consecutive-failure counter has reached it, emits reconnectFailed
and changes nothing (in particular schedules no timer); otherwise computes
the backoff delay from the current counter, increments the counter, sets
the timer and emits reconnecting with the 1-based attempt number. -/
def scheduleReconnect (cfg : ReconnectCfg) (s : ConnState) : ConnState × List ConnEmit :=
  if 0 < cfg.maxRetries ∧ cfg.maxRetries ≤ s.reconnectAttempt then
    (s, [ConnEmit.reconnectFailed s.reconnectAttempt])
  else
    ({ s with reconnectAttempt := s.reconnectAttempt + 1, timerPending := true },
     [ConnEmit.reconnecting (s.reconnectAttempt + 1)
        (getReconnectDelay cfg s.reconnectAttempt)])

/-- One step of the connection machine.
  - userConnect runs the connect() body;
  - userDisconnect (disconnect()) sets the intentional-close flag, cancels
    any pending reconnect timer and marks the transport closed;
  - transportConnected (_onConnected) marks connected, resets the
    consecutive-failure counter to 0 and clears the timer;
  - transportDisconnected (_onDisconnected) marks disconnected, emits the
    disconnected event with the intentional flag, and schedules a
    reconnect only when the close was not intentional;
  - timerFire models a pending reconnect timer elapsing: the callback
    nulls the timer and re-checks the intentional-close flag before
    calling connect(). -/
def connStep (cfg : ReconnectCfg) (s : ConnState) : ConnEvent → ConnState × List ConnEmit
  | ConnEvent.userConnect => connectBody s
  | ConnEvent.userDisconnect =>
      ({ s with intentionalClose := true, timerPending := false, isConnected := false },
       [])
  | ConnEvent.transportConnected =>
      ({ s with isConnected := true, reconnectAttempt := 0, timerPending := false },
       [ConnEmit.connected])
  | ConnEvent.transportDisconnected =>
      if s.intentionalClose then
        ({ s with isConnected := false }, [ConnEmit.disconnected s.intentionalClose])
      else
        ((scheduleReconnect cfg { s with isConnected := false }).1,
         ConnEmit.disconnected s.intentionalClose
           :: (scheduleReconnect cfg { s with isConnected := false }).2)
  | ConnEvent.timerFire =>
      if s.timerPending then
        if s.intentionalClose then ({ s with timerPending := false }, [])
        else connectBody { s with timerPending := false }
      else (s, [])

/-- Run the connection machine over a list of events, collecting all
emitted actions in order. -/
def connRun (cfg : ReconnectCfg) : ConnState → List ConnEvent → ConnState × List ConnEmit
  | s, [] => (s, [])
  | s, e :: rest =>
      ((connRun cfg (connStep cfg s e).1 rest).1,
       (connStep cfg s e).2 ++ (connRun cfg (connStep cfg s e).1 rest).2)

/-- Iterate _scheduleReconnect n times (one call per consecutive
connection failure), collecting the emitted actions. -/
def iterSchedule (cfg : ReconnectCfg) : ConnState → ℕ → ConnState × List ConnEmit
  | s, 0 => (s, [])
  | s, n + 1 =>
      ((iterSchedule cfg (scheduleReconnect cfg s).1 n).1,
       (scheduleReconnect cfg s).2 ++ (iterSchedule cfg (scheduleReconnect cfg s).1 n).2)

/- ------------------------------------------------------------------ -/
/- Constructor configuration and validation. -/
/- ------------------------------------------------------------------ -/

/-- The server part of a constructor config; absent fields are none. -/
structure ServerConfig where
  ip : Option String
  port : Option ℤ
deriving DecidableEq

/-- Optional per-connection reconnect overrides. -/
structure ReconnectOverride where
  initialDelayMs : Option ℚ
  backoffMultiplier : Option ℚ
  maxDelayMs : Option ℚ
  maxRetries : Option ℕ
deriving DecidableEq

/-- An override object with no fields set. -/
def emptyReconnectOverride : ReconnectOverride :=
  { initialDelayMs := none
    backoffMultiplier := none
    maxDelayMs := none
    maxRetries := none }

/-- Config object passed to the RustPlusConnection constructor. -/
structure AppConfig where
  steamId : Option String
  playerToken : Option ℤ
  server : Option ServerConfig
  reconnect : Option ReconnectOverride
deriving DecidableEq

/-- JavaScript truthiness test for an optional string: missing values and
the empty string are falsy. -/
def jsFalsyStr : Option String → Bool
  | none => true
  | some s => decide (s = "")

/-- JavaScript truthiness test for an optional number: missing values and
zero are falsy. -/
def jsFalsyNum : Option ℤ → Bool
  | none => true
  | some n => decide (n = 0)

/-- Object.assign of RECONNECT_DEFAULTS with config.reconnect || \x7b\x7d:
every field that the override sets wins, the default fills the rest. -/
def mergedReconnect (o : Option ReconnectOverride) : ReconnectCfg :=
  { initialDelayMs :=
      (o.getD emptyReconnectOverride).initialDelayMs.getD RECONNECT_DEFAULTS.initialDelayMs
    backoffMultiplier :=
      (o.getD emptyReconnectOverride).backoffMultiplier.getD RECONNECT_DEFAULTS.backoffMultiplier
    maxDelayMs :=
      (o.getD emptyReconnectOverride).maxDelayMs.getD RECONNECT_DEFAULTS.maxDelayMs
    maxRetries :=
      (o.getD emptyReconnectOverride).maxRetries.getD RECONNECT_DEFAULTS.maxRetries }

/-- Error thrown for a missing/falsy steamId, playerToken or server. -/
def errRequiredConfig : String :=
  "[RustPlusConnection] config must include steamId, playerToken, and server \x7b ip, port \x7d"

/-- Error thrown for a missing/falsy server.ip or server.port. -/
def errServerConfig : String :=
  "[RustPlusConnection] config.server must include ip and port"

/-- A fully constructed RustPlusConnection: the copied credential and
address fields, the merged reconnect settings, the initial lifecycle
state and the (empty) entity type cache. -/
structure RustPlusConnection where
  steamId : String
  playerToken : ℤ
  serverIp : String
  serverPort : ℤ
  reconnectCfg : ReconnectCfg
  state : ConnState
  entityTypeCache : List (ℤ × ℕ)
deriving DecidableEq

/-- Model of the RustPlusConnection constructor: validates the config with
JavaScript truthiness tests (a missing field, an empty string and a zero
number all fail the check) and, on success, returns the idle connection
object before any connect attempt. -/
def RustPlusConnection.create : Option AppConfig → Except String RustPlusConnection
  | none => Except.error errRequiredConfig
  | some c =>
      if jsFalsyStr c.steamId || jsFalsyNum c.playerToken || c.server.isNone then
        Except.error errRequiredConfig
      else
        match c.server with
        | none => Except.error errRequiredConfig
        | some srv =>
            if jsFalsyStr srv.ip || jsFalsyNum srv.port then
              Except.error errServerConfig
            else
              Except.ok
                { steamId := c.steamId.getD ""
                  playerToken := c.playerToken.getD 0
                  serverIp := srv.ip.getD ""
                  serverPort := srv.port.getD 0
                  reconnectCfg := mergedReconnect c.reconnect
                  state := initialConnState
                  entityTypeCache := [] }

/- ------------------------------------------------------------------ -/
/- Connection registry (module-level Map keyed by "ip:port"). -/
/- ------------------------------------------------------------------ -/

/-- Model of _connectionKey: the canonical "ip:port" map key. -/
def connectionKey (ip : String) (port : ℤ) : String :=
  ip ++ ":" ++ toString port

/-- Side effects performed by the registry functions on sessions, in
execution order. -/
inductive RegAction (σ : Type) where
  | disconnectTransport (s : σ)
  | removeEntry (key : String)
  | registerEntry (key : String) (s : σ)
deriving DecidableEq

/-- Model of createConnection restricted to the registry: given the
current key-to-session map, the key of the new session and the freshly
constructed session, tears down and deletes any existing session for the
same key before registering the new one.  Returns the updated map and the
list of registry actions in execution order. -/
def createConnection {σ : Type} (reg : String → Option σ) (key : String)
    (fresh : σ) : (String → Option σ) × List (RegAction σ) :=
  match reg key with
  | some existing =>
      (fun k => if k = key then some fresh else reg k,
       [RegAction.disconnectTransport existing, RegAction.removeEntry key,
        RegAction.registerEntry key fresh])
  | none =>
      (fun k => if k = key then some fresh else reg k,
       [RegAction.registerEntry key fresh])

/- ------------------------------------------------------------------ -/
/- Map marker poller (src/rustplus/mapPoller.js). -/
/- ------------------------------------------------------------------ -/

/-- AppMarkerType for a Bradley APC explosion marker. -/
def MARKER_TYPE.EXPLOSION : ℕ := 2

/-- AppMarkerType for a Chinook helicopter marker. -/
def MARKER_TYPE.CH47 : ℕ := 4

/-- AppMarkerType for the cargo ship marker. -/
def MARKER_TYPE.CARGO_SHIP : ℕ := 5

/-- AppMarkerType for a locked crate marker. -/
def MARKER_TYPE.CRATE : ℕ := 6

/-- AppMarkerType for the patrol helicopter marker. -/
def MARKER_TYPE.PATROL_HELICOPTER : ℕ := 8

/-- One map marker from a getMapMarkers response. -/
structure MapMarker where
  type : ℕ
  x : ℚ
  y : ℚ
deriving DecidableEq

/-- Model of _isOilrigMarker: a crate or Chinook marker indicates an
active oil rig event. -/
def isOilrigMarker (m : MapMarker) : Bool :=
  m.type == MARKER_TYPE.CRATE || m.type == MARKER_TYPE.CH47

/-- Presence test for one tracked marker type over the marker list. -/
def markerPresent (markers : List MapMarker) (t : ℕ) : Bool :=
  markers.any (fun m => m.type == t)

/-- Composite presence test for the oil rig event. -/
def oilrigPresent (markers : List MapMarker) : Bool :=
  markers.any isOilrigMarker

/-- Per-event-kind presence and timestamp tracker.  Timestamps are
abstract instants (the Date values of the source). -/
structure EventTimer where
  active : Bool
  spawnedAt : Option ℕ
  despawnedAt : Option ℕ
deriving DecidableEq

/-- Model of _blankTimer. -/
def blankTimer : EventTimer :=
  { active := false, spawnedAt := none, despawnedAt := none }

/-- Spawn/despawn events emitted by the poller, tagged with the event
kind name and the recorded timestamp. -/
inductive PollEmit where
  | spawn (event : String) (spawnedAt : ℕ)
  | despawn (event : String) (despawnedAt : ℕ)
deriving DecidableEq

/-- Model of _processEvent: on the first tick after polling starts the
observed presence is seeded silently (active := presence, spawnedAt set
only when present); afterwards a false-to-true transition records the
spawn time and emits spawn, a true-to-false transition records the
despawn time and emits despawn, and no change does nothing.  The team
chat notification sent alongside each emission is not modelled. -/
def processEvent (timer : EventTimer) (eventName : String) (nowPresent : Bool)
    (isFirstTick : Bool) (now : ℕ) : EventTimer × List PollEmit :=
  if isFirstTick then
    ({ active := nowPresent
       spawnedAt := if nowPresent then some now else none
       despawnedAt := timer.despawnedAt }, [])
  else if nowPresent && !timer.active then
    ({ timer with active := true, spawnedAt := some now }, [PollEmit.spawn eventName now])
  else if !nowPresent && timer.active then
    ({ timer with active := false, despawnedAt := some now },
     [PollEmit.despawn eventName now])
  else (timer, [])

/-- Poller state per connection: the cached map size, the initialized
flag of the source (named baselined here) that gates the silent baseline
tick, and the four event timers. -/
structure PollerState where
  mapSize : ℚ
  baselined : Bool
  cargo : EventTimer
  heli : EventTimer
  bradley : EventTimer
  oilrig : EventTimer
deriving DecidableEq

/-- State created by startPoller: nothing baselined, four blank timers. -/
def initialPollerState : PollerState :=
  { mapSize := 0
    baselined := false
    cargo := blankTimer
    heli := blankTimer
    bradley := blankTimer
    oilrig := blankTimer }

/-- Model of the success path of one _tick: given the markers array of a
successful getMapMarkers response, computes the presence of the four
tracked kinds, processes each timer (the first successful tick being the
baseline tick) and sets the initialized flag.  Failed ticks (not
connected, error response, missing markers) leave the state unchanged and
emit nothing, and are therefore not represented. -/
def tickMarkers (st : PollerState) (markers : List MapMarker) (now : ℕ) :
    PollerState × List PollEmit :=
  ({ st with
      cargo := (processEvent st.cargo "cargo"
        (markerPresent markers MARKER_TYPE.CARGO_SHIP) (!st.baselined) now).1
      heli := (processEvent st.heli "heli"
        (markerPresent markers MARKER_TYPE.PATROL_HELICOPTER) (!st.baselined) now).1
      bradley := (processEvent st.bradley "bradley"
        (markerPresent markers MARKER_TYPE.EXPLOSION) (!st.baselined) now).1
      oilrig := (processEvent st.oilrig "oilrig"
        (oilrigPresent markers) (!st.baselined) now).1
      baselined := true },
   (processEvent st.cargo "cargo"
      (markerPresent markers MARKER_TYPE.CARGO_SHIP) (!st.baselined) now).2
     ++ (processEvent st.heli "heli"
          (markerPresent markers MARKER_TYPE.PATROL_HELICOPTER) (!st.baselined) now).2
     ++ (processEvent st.bradley "bradley"
          (markerPresent markers MARKER_TYPE.EXPLOSION) (!st.baselined) now).2
     ++ (processEvent st.oilrig "oilrig"
          (oilrigPresent markers) (!st.baselined) now).2)

/-- Model of _coordToGrid: 150-unit cells, column letter from
floor(x/150) starting at A, row number floor((mapSize - y)/150) + 1
counted from the top of the map; a falsy (zero) map size yields the
explicit unknown label. -/
def coordToGrid (x y mapSize : ℚ) : String :=
  if mapSize = 0 then "??"
  else
    (Char.ofNat (65 + Int.floor (x / 150)).toNat).toString
      ++ toString (Int.floor ((mapSize - y) / 150) + 1)

/- ------------------------------------------------------------------ -/
/- Event broadcaster (src/rustplus/broadcaster.js). -/
/- ------------------------------------------------------------------ -/

/-- Storage fill ratio that triggers the almost-full broadcast.  The
source literal 0.9 denotes the double closest to 9/10; for ratios of the
form items.length / capacity with moderate integer operands the
comparison against it agrees with the exact rational comparison used
here. -/
def STORAGE_FULL_THRESHOLD : ℚ := 9/10

/-- Model of the storageUpdated listener wired by wireBroadcasters.  The
state is the per-entity storageAboveThreshold table (keyed by the entity
id; the source keys by its decimal string, which is injective).  Given
one storageUpdated event (entity id, items.length, capacity) it returns
the updated table and whether an alert message send was attempted.  A
non-positive capacity returns without touching the table (the
divide-by-zero guard of the source). -/
def storageUpdatedStep (st : List (ℤ × Bool)) (entityId : ℤ) (itemsLen : ℕ)
    (capacity : ℤ) : List (ℤ × Bool) × Bool :=
  if capacity ≤ 0 then (st, false)
  else
    ((entityId, decide (STORAGE_FULL_THRESHOLD ≤ (itemsLen : ℚ) / (capacity : ℚ))) :: st,
     decide (STORAGE_FULL_THRESHOLD ≤ (itemsLen : ℚ) / (capacity : ℚ))
       && !((st.lookup entityId).getD false))

/-- Feed a sequence of storageUpdated events (entity id, items.length,
capacity) through the listener, collecting the per-event send flags. -/
def storageRun (st : List (ℤ × Bool)) :
    List (ℤ × ℕ × ℤ) → List (ℤ × Bool) × List Bool
  | [] => (st, [])
  | (id, len, cap) :: rest =>
      ((storageRun (storageUpdatedStep st id len cap).1 rest).1,
       (storageUpdatedStep st id len cap).2
         :: (storageRun (storageUpdatedStep st id len cap).1 rest).2)

/-- The fill-ratio scenario of the specification, realised exactly:
ratios 0.5, 0.95, 0.97, 0.80, 0.92 for one entity (capacity 100 makes
every listed ratio exactly representable as items.length / capacity). -/
def storageScenario : List (ℤ × ℕ × ℤ) :=
  [(5001, 50, 100), (5001, 95, 100), (5001, 97, 100), (5001, 80, 100), (5001, 92, 100)]

/-- The same crossing pattern at capacity 20 (ratios 0.5, 0.95, 0.95,
0.8, 0.95): the two unrepresentable ratios of the specification scenario
are replaced by the nearest representable ones on the same side of the
threshold. -/
def storageScenario20 : List (ℤ × ℕ × ℤ) :=
  [(5001, 10, 20), (5001, 19, 20), (5001, 19, 20), (5001, 16, 20), (5001, 19, 20)]

/- ------------------------------------------------------------------ -/
/- Claim C1: value-based classification with an unknown entity type. -/
/- ------------------------------------------------------------------ -/

/-- A payload that carries a boolean value field together with the
item-list/capacity storage shape. -/
def valueWithStorageShape : EntityPayload :=
  { value := some true, items := some [], capacity := some 24 }

/-- A payload that carries only a boolean value field. -/
def unknownValuePayload : EntityPayload :=
  { value := some true, items := none, capacity := none }

/-- C1, counterexample: a payload carrying a boolean value field for an
entity with no cached type does not always produce switchChanged — when
the payload also carries the item-list/capacity shape the storage branch
wins and the only event is storageUpdated, so the claim as stated fails
at entity 77 with value=true, items=[], capacity=24. -/
theorem storage_shape_overrides_value_counterexample :
    valueWithStorageShape.value = some true
    ∧ List.lookup (77 : ℤ) ([] : List (ℤ × ℕ)) = none
    ∧ handleEntityChanged [] 77 (some valueWithStorageShape)
        = [GameEvent.storageUpdated 77 [] 24]
    ∧ GameEvent.switchChanged 77 true ∉ handleEntityChanged [] 77 (some valueWithStorageShape)
    ∧ GameEvent.switchChanged 77 false ∉ handleEntityChanged [] 77 (some valueWithStorageShape) := by
  refine ⟨rfl, rfl, by decide, by decide, by decide⟩

/-- C1 (amended): for every entity-changed payload that carries a boolean
value field, does NOT carry the item-list/capacity storage shape, and
whose entity has no cached type, the classifier emits switchChanged with
that value unconditionally, and additionally alarmTriggered if and only
if the value is true — so for value=true exactly the two events
switchChanged and alarmTriggered, and for value=false only switchChanged. -/
theorem unknown_type_dual_emission
    (cache : List (ℤ × ℕ)) (entityId : ℤ) (p : EntityPayload) (v : Bool)
    (hv : p.value = some v)
    (hshape : ¬(p.items.isSome ∧ p.capacity.isSome))
    (hcache : cache.lookup entityId = none) :
    handleEntityChanged cache entityId (some p) =
      GameEvent.switchChanged entityId v
        :: (if v = true then [GameEvent.alarmTriggered entityId] else []) := by
  simp only [handleEntityChanged]
  have h1 : ¬(cache.lookup entityId = some ENTITY_TYPE.STORAGE_MONITOR
      ∨ (p.items.isSome ∧ p.capacity.isSome)) := by
    rw [hcache]
    rintro (h | h)
    · exact Option.noConfusion h
    · exact hshape h
  rw [if_neg h1, if_pos (by rw [hv]; exact rfl)]
  rw [if_neg (by rw [hcache]; simp), if_neg (by rw [hcache]; simp)]
  rw [hv]
  simp

/-- C1 witness: entity 77, value=true, no storage shape, no cache entry
gives exactly switchChanged and alarmTriggered. -/
theorem unknown_type_dual_emission_witness :
    (unknownValuePayload.value = some true
      ∧ ¬(unknownValuePayload.items.isSome ∧ unknownValuePayload.capacity.isSome)
      ∧ List.lookup (77 : ℤ) ([] : List (ℤ × ℕ)) = none)
    ∧ handleEntityChanged [] 77 (some unknownValuePayload)
        = GameEvent.switchChanged 77 true
            :: (if true = true then [GameEvent.alarmTriggered 77] else []) :=
  ⟨⟨rfl, by decide, rfl⟩,
   unknown_type_dual_emission [] 77 unknownValuePayload true rfl (by decide) rfl⟩

/- ------------------------------------------------------------------ -/
/- Claim C4: storage shape takes priority. -/
/- ------------------------------------------------------------------ -/

/-- C4: for every entity-changed payload, if the payload carries an
item-list field together with a capacity field (including an empty list)
OR the cache maps the entity to STORAGE_MONITOR, the classifier emits
exactly one storageUpdated event carrying the items and capacity and no
value-based event, regardless of cache contents in the shape case: the
storage check is decided before any value-based check. -/
theorem storage_shape_priority
    (cache : List (ℤ × ℕ)) (entityId : ℤ) (p : EntityPayload)
    (h : (p.items.isSome ∧ p.capacity.isSome)
          ∨ cache.lookup entityId = some ENTITY_TYPE.STORAGE_MONITOR) :
    handleEntityChanged cache entityId (some p)
      = [GameEvent.storageUpdated entityId (p.items.getD []) (p.capacity.getD 0)] := by
  simp only [handleEntityChanged]
  rcases h with h | h
  · rw [if_pos (Or.inr h)]
  · rw [if_pos (Or.inl h)]

/-- C4 witness: entity 5001 with items=[] and capacity=24 emits
storageUpdated with those fields even though the cache says SWITCH and a
boolean value is present. -/
theorem storage_shape_priority_witness :
    ((valueWithStorageShape.items.isSome ∧ valueWithStorageShape.capacity.isSome)
        ∨ List.lookup (5001 : ℤ) [((5001 : ℤ), ENTITY_TYPE.SWITCH)]
            = some ENTITY_TYPE.STORAGE_MONITOR)
    ∧ handleEntityChanged [((5001 : ℤ), ENTITY_TYPE.SWITCH)] 5001 (some valueWithStorageShape)
        = [GameEvent.storageUpdated 5001 (valueWithStorageShape.items.getD [])
            (valueWithStorageShape.capacity.getD 0)] :=
  ⟨Or.inl (by decide),
   storage_shape_priority [((5001 : ℤ), ENTITY_TYPE.SWITCH)] 5001 valueWithStorageShape
     (Or.inl (by decide))⟩

/- ------------------------------------------------------------------ -/
/- Claim C9: grid coordinate conversion. -/
/- ------------------------------------------------------------------ -/

/-- C9: grid conversion with 150-unit cells maps x=300, y=3850,
worldSize=4000 to "C2"; a zero (falsy/unknown) world size yields the
explicit unknown label "??"; and for every non-zero world size the label
is the column letter from floor(x/150) (0 maps to A) followed by the row
number floor((worldSize - y)/150) + 1. -/
theorem grid_conversion :
    coordToGrid 300 3850 4000 = "C2"
    ∧ (∀ x y : ℚ, coordToGrid x y 0 = "??")
    ∧ (∀ x y mapSize : ℚ, mapSize ≠ 0 →
        coordToGrid x y mapSize =
          (Char.ofNat (65 + Int.floor (x / 150)).toNat).toString
            ++ toString (Int.floor ((mapSize - y) / 150) + 1)) := by
  refine ⟨?_, ?_, ?_⟩
  · unfold coordToGrid
    rw [if_neg (by norm_num)]
    rw [show ((300 : ℚ) / 150) = ((2 : ℤ) : ℚ) by norm_num]
    rw [show (((4000 : ℚ) - 3850) / 150) = ((1 : ℤ) : ℚ) by norm_num]
    rw [Int.floor_intCast, Int.floor_intCast]
    decide
  · intro x y
    unfold coordToGrid
    rw [if_pos rfl]
  · intro x y mapSize h
    unfold coordToGrid
    rw [if_neg h]

/-- C9 witness: the general formula applied at x=300, y=3850,
worldSize=4000. -/
theorem grid_conversion_witness :
    ((4000 : ℚ) ≠ 0)
    ∧ coordToGrid 300 3850 4000 =
        (Char.ofNat (65 + Int.floor ((300 : ℚ) / 150)).toNat).toString
          ++ toString (Int.floor (((4000 : ℚ) - 3850) / 150) + 1) :=
  ⟨by norm_num, grid_conversion.2.2 300 3850 4000 (by norm_num)⟩

/- ------------------------------------------------------------------ -/
/- Helper lemmas for the connection machine. -/
/- ------------------------------------------------------------------ -/

/-- Below the retry ceiling, _scheduleReconnect increments the counter,
sets the timer and emits one reconnecting event. -/
lemma scheduleReconnect_lt (cfg : ReconnectCfg) (s : ConnState)
    (h : s.reconnectAttempt < cfg.maxRetries) :
    scheduleReconnect cfg s =
      ({ s with reconnectAttempt := s.reconnectAttempt + 1, timerPending := true },
       [ConnEmit.reconnecting (s.reconnectAttempt + 1)
          (getReconnectDelay cfg s.reconnectAttempt)]) := by
  unfold scheduleReconnect
  rw [if_neg (by omega)]

/-- At or above the retry ceiling, _scheduleReconnect emits
reconnectFailed and changes nothing. -/
lemma scheduleReconnect_ge (cfg : ReconnectCfg) (s : ConnState)
    (hR : 0 < cfg.maxRetries) (h : cfg.maxRetries ≤ s.reconnectAttempt) :
    scheduleReconnect cfg s = (s, [ConnEmit.reconnectFailed s.reconnectAttempt]) := by
  unfold scheduleReconnect
  rw [if_pos ⟨hR, h⟩]

/-- Iterating _scheduleReconnect n times while staying within the retry
ceiling advances the counter by exactly n and emits exactly the n
reconnecting events for attempts counter+1 .. counter+n, with the backoff
delay computed from the pre-increment counter each time. -/
lemma iterSchedule_spec (cfg : ReconnectCfg) :
    ∀ (n : ℕ) (s : ConnState), s.reconnectAttempt + n ≤ cfg.maxRetries →
      (iterSchedule cfg s n).1.reconnectAttempt = s.reconnectAttempt + n
      ∧ (iterSchedule cfg s n).2
          = (List.range' s.reconnectAttempt n).map
              (fun i => ConnEmit.reconnecting (i + 1) (getReconnectDelay cfg i)) := by
  intro n
  induction n with
  | zero =>
      intro s _
      exact ⟨rfl, rfl⟩
  | succ n ih =>
      intro s hle
      have hstep := scheduleReconnect_lt cfg s (by omega)
      have ihs := ih { s with reconnectAttempt := s.reconnectAttempt + 1, timerPending := true }
        (by show s.reconnectAttempt + 1 + n ≤ cfg.maxRetries; omega)
      constructor
      · show (iterSchedule cfg (scheduleReconnect cfg s).1 n).1.reconnectAttempt
            = s.reconnectAttempt + (n + 1)
        rw [hstep]
        dsimp only
        rw [ihs.1]
        dsimp only
        omega
      · show (scheduleReconnect cfg s).2
            ++ (iterSchedule cfg (scheduleReconnect cfg s).1 n).2
            = (List.range' s.reconnectAttempt (n + 1)).map
                (fun i => ConnEmit.reconnecting (i + 1) (getReconnectDelay cfg i))
        rw [hstep]
        dsimp only
        rw [ihs.2]
        dsimp only
        rw [List.range'_succ s.reconnectAttempt n 1, List.map_cons]
        rfl

/-- _scheduleReconnect never pushes the counter past the ceiling. -/
lemma scheduleReconnect_attempt_le (cfg : ReconnectCfg) (s : ConnState)
    (hR : 0 < cfg.maxRetries) (h : s.reconnectAttempt ≤ cfg.maxRetries) :
    (scheduleReconnect cfg s).1.reconnectAttempt ≤ cfg.maxRetries := by
  unfold scheduleReconnect
  split_ifs with hc
  · exact h
  · show s.reconnectAttempt + 1 ≤ cfg.maxRetries
    omega

/-- No single machine step pushes the counter past the ceiling. -/
lemma connStep_attempt_le (cfg : ReconnectCfg) (s : ConnState) (e : ConnEvent)
    (hR : 0 < cfg.maxRetries) (h : s.reconnectAttempt ≤ cfg.maxRetries) :
    (connStep cfg s e).1.reconnectAttempt ≤ cfg.maxRetries := by
  cases e with
  | userConnect => exact h
  | userDisconnect => exact h
  | transportConnected => exact Nat.zero_le _
  | transportDisconnected =>
      by_cases hI : s.intentionalClose = true
      · simp only [connStep, if_pos hI]
        exact h
      · simp only [connStep, if_neg hI]
        exact scheduleReconnect_attempt_le cfg _ hR h
  | timerFire =>
      by_cases hT : s.timerPending = true
      · by_cases hI : s.intentionalClose = true
        · simp only [connStep, if_pos hT, if_pos hI]
          exact h
        · simp only [connStep, if_pos hT, if_neg hI]
          exact h
      · simp only [connStep, if_neg hT]
        exact h

/-- Across any event sequence the counter stays at or below the ceiling. -/
lemma connRun_attempt_le (cfg : ReconnectCfg) :
    ∀ (events : List ConnEvent) (s : ConnState), 0 < cfg.maxRetries →
      s.reconnectAttempt ≤ cfg.maxRetries →
      (connRun cfg s events).1.reconnectAttempt ≤ cfg.maxRetries := by
  intro events
  induction events with
  | nil => intro s _ h; exact h
  | cons e rest ih =>
      intro s hR h
      exact ih (connStep cfg s e).1 hR (connStep_attempt_le cfg s e hR h)

/- ------------------------------------------------------------------ -/
/- Claim C2: retry ceiling, reconnect counting, counter reset. -/
/- ------------------------------------------------------------------ -/

/-- C2: (i) a run of n consecutive failures starting within the ceiling
schedules exactly n reconnect attempts, one reconnecting emission per
failure with 1-based attempt numbers, so from a fresh counter exactly
maxRetries attempts fit below the ceiling; (ii) once the counter has
reached maxRetries > 0 the next failure emits reconnectFailed and leaves
the state untouched (no timer scheduled, hence no further automatic
attempt); (iii) over every event sequence the counter never exceeds
maxRetries; (iv) every Connected transition resets the counter to 0. -/
theorem reconnect_retry_ceiling :
    (∀ (cfg : ReconnectCfg) (s : ConnState) (n : ℕ),
        s.reconnectAttempt + n ≤ cfg.maxRetries →
        (iterSchedule cfg s n).2.length = n
          ∧ (iterSchedule cfg s n).1.reconnectAttempt = s.reconnectAttempt + n
          ∧ (iterSchedule cfg s n).2
              = (List.range' s.reconnectAttempt n).map
                  (fun i => ConnEmit.reconnecting (i + 1) (getReconnectDelay cfg i)))
    ∧ (∀ (cfg : ReconnectCfg) (s : ConnState),
        0 < cfg.maxRetries → cfg.maxRetries ≤ s.reconnectAttempt →
        scheduleReconnect cfg s = (s, [ConnEmit.reconnectFailed s.reconnectAttempt]))
    ∧ (∀ (cfg : ReconnectCfg) (s : ConnState) (events : List ConnEvent),
        0 < cfg.maxRetries → s.reconnectAttempt ≤ cfg.maxRetries →
        (connRun cfg s events).1.reconnectAttempt ≤ cfg.maxRetries)
    ∧ (∀ (cfg : ReconnectCfg) (s : ConnState),
        (connStep cfg s ConnEvent.transportConnected).1.reconnectAttempt = 0) := by
  refine ⟨?_, ?_, ?_, ?_⟩
  · intro cfg s n h
    obtain ⟨h1, h2⟩ := iterSchedule_spec cfg n s h
    refine ⟨?_, h1, h2⟩
    rw [h2]
    simp
  · intro cfg s hR h
    exact scheduleReconnect_ge cfg s hR h
  · intro cfg s events hR h
    exact connRun_attempt_le cfg events s hR h
  · intro cfg s
    rfl

/-- A state whose counter sits exactly at the default retry ceiling. -/
def maxedConnState : ConnState :=
  { intentionalClose := false
    reconnectAttempt := 10
    timerPending := false
    isConnected := false }

/-- C2 witness: from the idle state, 10 consecutive failures emit exactly
10 reconnecting events, and the 11th failure emits reconnectFailed
without touching the state. -/
theorem reconnect_retry_ceiling_witness :
    ((initialConnState.reconnectAttempt + 10 ≤ RECONNECT_DEFAULTS.maxRetries)
      ∧ ((iterSchedule RECONNECT_DEFAULTS initialConnState 10).2.length = 10
          ∧ (iterSchedule RECONNECT_DEFAULTS initialConnState 10).1.reconnectAttempt
              = initialConnState.reconnectAttempt + 10
          ∧ (iterSchedule RECONNECT_DEFAULTS initialConnState 10).2
              = (List.range' initialConnState.reconnectAttempt 10).map
                  (fun i => ConnEmit.reconnecting (i + 1)
                    (getReconnectDelay RECONNECT_DEFAULTS i))))
    ∧ ((0 < RECONNECT_DEFAULTS.maxRetries
          ∧ RECONNECT_DEFAULTS.maxRetries ≤ maxedConnState.reconnectAttempt)
      ∧ scheduleReconnect RECONNECT_DEFAULTS maxedConnState
          = (maxedConnState, [ConnEmit.reconnectFailed maxedConnState.reconnectAttempt])) :=
  ⟨⟨by decide,
    reconnect_retry_ceiling.1 RECONNECT_DEFAULTS initialConnState 10 (by decide)⟩,
   ⟨⟨by decide, by decide⟩,
    reconnect_retry_ceiling.2.1 RECONNECT_DEFAULTS maxedConnState (by decide) (by decide)⟩⟩

/- ------------------------------------------------------------------ -/
/- Claim C3: disconnect() suppresses every automatic reconnect. -/
/- ------------------------------------------------------------------ -/

/-- After disconnect() the intentional-close flag stays set, no timer is
pending, and no step other than a user connect() call can start a
transport connect. -/
lemma connStep_closed (cfg : ReconnectCfg) (s : ConnState) (e : ConnEvent)
    (he : e ≠ ConnEvent.userConnect)
    (hI : s.intentionalClose = true) (hT : s.timerPending = false) :
    (connStep cfg s e).1.intentionalClose = true
      ∧ (connStep cfg s e).1.timerPending = false
      ∧ ConnEmit.connectStarted ∉ (connStep cfg s e).2 := by
  cases e with
  | userConnect => exact absurd rfl he
  | userDisconnect => exact ⟨rfl, rfl, by simp [connStep]⟩
  | transportConnected => exact ⟨hI, rfl, by simp [connStep]⟩
  | transportDisconnected =>
      simp only [connStep, if_pos hI]
      exact ⟨hI, hT, by simp⟩
  | timerFire =>
      have hstep : connStep cfg s ConnEvent.timerFire = (s, []) := by
        simp only [connStep]
        rw [if_neg (show ¬(s.timerPending = true) by rw [hT]; exact Bool.false_ne_true)]
      rw [hstep]
      exact ⟨hI, hT, by simp⟩

/-- Once the intentional-close flag is set with no pending timer, no run
of non-userConnect events ever starts a transport connect. -/
lemma connRun_no_auto (cfg : ReconnectCfg) :
    ∀ (events : List ConnEvent) (s : ConnState),
      (∀ e ∈ events, e ≠ ConnEvent.userConnect) →
      s.intentionalClose = true → s.timerPending = false →
      ConnEmit.connectStarted ∉ (connRun cfg s events).2 := by
  intro events
  induction events with
  | nil =>
      intro s _ _ _
      simp [connRun]
  | cons e rest ih =>
      intro s hall hI hT
      obtain ⟨h1, h2, h3⟩ := connStep_closed cfg s e (hall e (by simp)) hI hT
      have hrest := ih (connStep cfg s e).1 (fun x hx => hall x (by simp [hx])) h1 h2
      show ConnEmit.connectStarted
          ∉ (connStep cfg s e).2 ++ (connRun cfg (connStep cfg s e).1 rest).2
      intro hmem
      rcases List.mem_append.1 hmem with hm | hm
      · exact h3 hm
      · exact hrest hm

/-- C3: if disconnect() is called, then for every following event
sequence that contains no explicit user connect() call — timer firings,
transport disconnections, anything the environment produces — the session
never initiates a transport connect on its own: disconnect() cancels the
pending timer and sets the intentional-close flag, and the timer callback
re-checks that flag. -/
theorem disconnect_suppresses_reconnect (cfg : ReconnectCfg) (s : ConnState)
    (events : List ConnEvent)
    (h : ∀ e ∈ events, e ≠ ConnEvent.userConnect) :
    ConnEmit.connectStarted
      ∉ (connRun cfg (connStep cfg s ConnEvent.userDisconnect).1 events).2 :=
  connRun_no_auto cfg events _ h rfl rfl

/-- A state with a reconnect timer pending, as left by a scheduled
reconnect. -/
def pendingTimerState : ConnState :=
  { intentionalClose := false
    reconnectAttempt := 3
    timerPending := true
    isConnected := false }

/-- C3 witness: disconnect() while a reconnect timer is pending, followed
by the timer firing and a transport close, never starts a connect. -/
theorem disconnect_suppresses_reconnect_witness :
    (∀ e ∈ [ConnEvent.timerFire, ConnEvent.transportDisconnected, ConnEvent.timerFire],
        e ≠ ConnEvent.userConnect)
    ∧ ConnEmit.connectStarted
        ∉ (connRun RECONNECT_DEFAULTS
            (connStep RECONNECT_DEFAULTS pendingTimerState ConnEvent.userDisconnect).1
            [ConnEvent.timerFire, ConnEvent.transportDisconnected, ConnEvent.timerFire]).2 :=
  ⟨by decide,
   disconnect_suppresses_reconnect RECONNECT_DEFAULTS pendingTimerState
     [ConnEvent.timerFire, ConnEvent.transportDisconnected, ConnEvent.timerFire]
     (by decide)⟩

/- ------------------------------------------------------------------ -/
/- Claim C6: exponential backoff delay. -/
/- ------------------------------------------------------------------ -/

/-- C6: the delay computed by _getReconnectDelay coincides with the
specified formula min(initialDelay x multiplier^attempt, maxDelay); the
defaults are 5000 ms, 3/2 (the exact value of the source literal 1.5),
60000 ms and 10 retries; the first retry delay equals initialDelay
whenever initialDelay is at most the cap; no delay ever exceeds maxDelay;
and every scheduled retry below the ceiling emits reconnecting carrying
exactly that delay for the 0-based count of prior scheduled retries. -/
theorem reconnect_backoff_delay :
    (∀ (cfg : ReconnectCfg) (n : ℕ),
        getReconnectDelay cfg n
          = specReconnectDelay cfg.initialDelayMs cfg.backoffMultiplier cfg.maxDelayMs n)
    ∧ RECONNECT_DEFAULTS.initialDelayMs = 5000
    ∧ RECONNECT_DEFAULTS.backoffMultiplier = 3/2
    ∧ RECONNECT_DEFAULTS.maxDelayMs = 60000
    ∧ RECONNECT_DEFAULTS.maxRetries = 10
    ∧ (∀ n : ℕ, getReconnectDelay RECONNECT_DEFAULTS n = min (5000 * (3/2 : ℚ) ^ n) 60000)
    ∧ (∀ cfg : ReconnectCfg, cfg.initialDelayMs ≤ cfg.maxDelayMs →
        getReconnectDelay cfg 0 = cfg.initialDelayMs)
    ∧ (∀ (cfg : ReconnectCfg) (n : ℕ), getReconnectDelay cfg n ≤ cfg.maxDelayMs)
    ∧ (∀ (cfg : ReconnectCfg) (s : ConnState), s.reconnectAttempt < cfg.maxRetries →
        (scheduleReconnect cfg s).2
          = [ConnEmit.reconnecting (s.reconnectAttempt + 1)
              (getReconnectDelay cfg s.reconnectAttempt)]) := by
  refine ⟨fun cfg n => rfl, rfl, rfl, rfl, rfl, fun n => rfl, ?_, ?_, ?_⟩
  · intro cfg h
    unfold getReconnectDelay
    rw [pow_zero, mul_one]
    exact min_eq_left h
  · intro cfg n
    exact min_le_right _ _
  · intro cfg s h
    rw [scheduleReconnect_lt cfg s h]

/-- C6 witness: with the default settings the first retry delay is the
initial delay, and a fresh state schedules a reconnect carrying it. -/
theorem reconnect_backoff_delay_witness :
    (RECONNECT_DEFAULTS.initialDelayMs ≤ RECONNECT_DEFAULTS.maxDelayMs
      ∧ getReconnectDelay RECONNECT_DEFAULTS 0 = RECONNECT_DEFAULTS.initialDelayMs)
    ∧ (initialConnState.reconnectAttempt < RECONNECT_DEFAULTS.maxRetries
      ∧ (scheduleReconnect RECONNECT_DEFAULTS initialConnState).2
          = [ConnEmit.reconnecting (initialConnState.reconnectAttempt + 1)
              (getReconnectDelay RECONNECT_DEFAULTS initialConnState.reconnectAttempt)]) :=
  ⟨⟨by norm_num [RECONNECT_DEFAULTS],
    reconnect_backoff_delay.2.2.2.2.2.2.1 RECONNECT_DEFAULTS
      (by norm_num [RECONNECT_DEFAULTS])⟩,
   ⟨by decide,
    reconnect_backoff_delay.2.2.2.2.2.2.2.2 RECONNECT_DEFAULTS initialConnState
      (by decide)⟩⟩

/- ------------------------------------------------------------------ -/
/- Claim C5: poller baseline tick and spawn/despawn transitions. -/
/- ------------------------------------------------------------------ -/

/-- On the baseline tick _processEvent seeds the presence silently. -/
lemma processEvent_baseline (timer : EventTimer) (name : String) (present : Bool)
    (now : ℕ) :
    processEvent timer name present true now =
      ({ active := present
         spawnedAt := if present then some now else none
         despawnedAt := timer.despawnedAt }, []) := by
  unfold processEvent
  rw [if_pos rfl]

/-- C5: the first successful tick after the poller starts (initialized
flag still unset) sets every timer to the observed presence and emits
nothing, and marks the state initialized; on every later tick a
false-to-true presence change emits exactly one spawn recording the
timestamp, a true-to-false change emits exactly one despawn recording the
timestamp, and an unchanged presence emits nothing and leaves the timer
untouched. -/
theorem poller_baseline_and_transitions :
    (∀ (st : PollerState) (markers : List MapMarker) (now : ℕ),
        st.baselined = false →
        (tickMarkers st markers now).2 = []
          ∧ (tickMarkers st markers now).1.baselined = true
          ∧ (tickMarkers st markers now).1.cargo.active
              = markerPresent markers MARKER_TYPE.CARGO_SHIP
          ∧ (tickMarkers st markers now).1.heli.active
              = markerPresent markers MARKER_TYPE.PATROL_HELICOPTER
          ∧ (tickMarkers st markers now).1.bradley.active
              = markerPresent markers MARKER_TYPE.EXPLOSION
          ∧ (tickMarkers st markers now).1.oilrig.active = oilrigPresent markers)
    ∧ (∀ (timer : EventTimer) (name : String) (now : ℕ),
        timer.active = false →
        processEvent timer name true false now =
          ({ active := true, spawnedAt := some now, despawnedAt := timer.despawnedAt },
           [PollEmit.spawn name now]))
    ∧ (∀ (timer : EventTimer) (name : String) (now : ℕ),
        timer.active = true →
        processEvent timer name false false now =
          ({ active := false, spawnedAt := timer.spawnedAt, despawnedAt := some now },
           [PollEmit.despawn name now]))
    ∧ (∀ (timer : EventTimer) (name : String) (present : Bool) (now : ℕ),
        timer.active = present →
        processEvent timer name present false now = (timer, [])) := by
  refine ⟨?_, ?_, ?_, ?_⟩
  · intro st markers now h
    have hb : (!st.baselined) = true := by rw [h]; rfl
    refine ⟨?_, rfl, ?_, ?_, ?_, ?_⟩ <;>
      simp [tickMarkers, hb, processEvent_baseline]
  · intro timer name now h
    obtain ⟨a, sp, dp⟩ := timer
    cases a with
    | false => rfl
    | true => exact Bool.noConfusion h
  · intro timer name now h
    obtain ⟨a, sp, dp⟩ := timer
    cases a with
    | false => exact Bool.noConfusion h
    | true => rfl
  · intro timer name present now h
    obtain ⟨a, sp, dp⟩ := timer
    cases a <;> cases present <;> first | rfl | exact Bool.noConfusion h

/-- C5 witness: from the freshly started poller state, a tick seeing a
cargo marker emits nothing and records cargo as present; a later
false-to-true cargo transition emits exactly one spawn. -/
theorem poller_baseline_and_transitions_witness :
    (initialPollerState.baselined = false
      ∧ ((tickMarkers initialPollerState [⟨5, 0, 0⟩] 100).2 = []
          ∧ (tickMarkers initialPollerState [⟨5, 0, 0⟩] 100).1.baselined = true
          ∧ (tickMarkers initialPollerState [⟨5, 0, 0⟩] 100).1.cargo.active
              = markerPresent [⟨5, 0, 0⟩] MARKER_TYPE.CARGO_SHIP
          ∧ (tickMarkers initialPollerState [⟨5, 0, 0⟩] 100).1.heli.active
              = markerPresent [⟨5, 0, 0⟩] MARKER_TYPE.PATROL_HELICOPTER
          ∧ (tickMarkers initialPollerState [⟨5, 0, 0⟩] 100).1.bradley.active
              = markerPresent [⟨5, 0, 0⟩] MARKER_TYPE.EXPLOSION
          ∧ (tickMarkers initialPollerState [⟨5, 0, 0⟩] 100).1.oilrig.active
              = oilrigPresent [⟨5, 0, 0⟩]))
    ∧ (blankTimer.active = false
      ∧ processEvent blankTimer "cargo" true false 7 =
          ({ active := true, spawnedAt := some 7, despawnedAt := blankTimer.despawnedAt },
           [PollEmit.spawn "cargo" 7])) :=
  ⟨⟨rfl, poller_baseline_and_transitions.1 initialPollerState [⟨5, 0, 0⟩] 100 rfl⟩,
   ⟨rfl, poller_baseline_and_transitions.2.1 blankTimer "cargo" 7 rfl⟩⟩

/- ------------------------------------------------------------------ -/
/- Claim C7: storage fill-ratio threshold crossing. -/
/- ------------------------------------------------------------------ -/

/-- The rational threshold comparison is equivalent to an integer one. -/
lemma aboveThreshold_iff (len : ℕ) (cap : ℤ) (h : 0 < cap) :
    (STORAGE_FULL_THRESHOLD ≤ (len : ℚ) / (cap : ℚ)) ↔ 9 * cap ≤ 10 * (len : ℤ) := by
  rw [STORAGE_FULL_THRESHOLD, div_le_div_iff₀ (by norm_num) (by exact_mod_cast h)]
  rw [mul_comm ((len : ℚ)) (10 : ℚ)]
  constructor
  · intro hle
    exact_mod_cast hle
  · intro hle
    exact_mod_cast hle

/-- Computable characterisation of the listener step for positive
capacity. -/
lemma storageUpdatedStep_pos (st : List (ℤ × Bool)) (id : ℤ) (len : ℕ) (cap : ℤ)
    (h : 0 < cap) :
    storageUpdatedStep st id len cap =
      ((id, decide (9 * cap ≤ 10 * (len : ℤ))) :: st,
       decide (9 * cap ≤ 10 * (len : ℤ)) && !((st.lookup id).getD false)) := by
  unfold storageUpdatedStep
  rw [if_neg (by omega)]
  rw [decide_eq_decide.mpr (aboveThreshold_iff len cap h)]

/-- C7: for positive capacity the listener always overwrites the
per-entity "was already above" entry with the current comparison result
(whether or not it sends), and attempts a send exactly when the fill
ratio is at or above the threshold while the stored flag was false (an
upward crossing); the step depends on the payload only through the fill
ratio; and the specification scenario of ratios 0.5, 0.95, 0.97, 0.80,
0.92 for one entity — realised exactly at capacity 100, and in its
nearest capacity-20 realisation 0.5, 0.95, 0.95, 0.8, 0.95 — produces
exactly two sends, at the second and at the fifth event. -/
theorem storage_threshold_crossing :
    (∀ (st : List (ℤ × Bool)) (id : ℤ) (len : ℕ) (cap : ℤ), 0 < cap →
        (storageUpdatedStep st id len cap).1
            = (id, decide (STORAGE_FULL_THRESHOLD ≤ (len : ℚ) / (cap : ℚ))) :: st
          ∧ ((storageUpdatedStep st id len cap).2 = true ↔
              (STORAGE_FULL_THRESHOLD ≤ (len : ℚ) / (cap : ℚ)
                ∧ (st.lookup id).getD false = false)))
    ∧ (∀ (st : List (ℤ × Bool)) (id : ℤ) (l1 : ℕ) (c1 : ℤ) (l2 : ℕ) (c2 : ℤ),
        0 < c1 → 0 < c2 → (l1 : ℚ) / (c1 : ℚ) = (l2 : ℚ) / (c2 : ℚ) →
        storageUpdatedStep st id l1 c1 = storageUpdatedStep st id l2 c2)
    ∧ (storageRun [] storageScenario).2 = [false, true, false, false, true]
    ∧ (storageRun [] storageScenario20).2 = [false, true, false, false, true] := by
  refine ⟨?_, ?_, ?_, ?_⟩
  · intro st id len cap h
    constructor
    · unfold storageUpdatedStep
      rw [if_neg (by omega)]
    · unfold storageUpdatedStep
      rw [if_neg (by omega)]
      simp [Bool.and_eq_true, decide_eq_true_eq, Bool.not_eq_true']
  · intro st id l1 c1 l2 c2 h1 h2 hr
    unfold storageUpdatedStep
    rw [if_neg (by omega), if_neg (by omega), hr]
  · simp only [storageScenario, storageRun]
    simp (disch := omega) only [storageUpdatedStep_pos]
    decide
  · simp only [storageScenario20, storageRun]
    simp (disch := omega) only [storageUpdatedStep_pos]
    decide

/-- C7 witness: one event at 19/20 fill on a fresh table updates the
table and reports a send exactly under the crossing condition. -/
theorem storage_threshold_crossing_witness :
    ((0 : ℤ) < 20)
    ∧ ((storageUpdatedStep [] 5001 19 20).1
          = ((5001 : ℤ), decide (STORAGE_FULL_THRESHOLD ≤ ((19 : ℕ) : ℚ) / ((20 : ℤ) : ℚ))) :: []
        ∧ ((storageUpdatedStep [] 5001 19 20).2 = true ↔
            (STORAGE_FULL_THRESHOLD ≤ ((19 : ℕ) : ℚ) / ((20 : ℤ) : ℚ)
              ∧ ((([] : List (ℤ × Bool)).lookup (5001 : ℤ)).getD false = false)))) :=
  ⟨by decide, storage_threshold_crossing.1 [] 5001 19 20 (by decide)⟩

/- ------------------------------------------------------------------ -/
/- Claim C8: registry replace semantics. -/
/- ------------------------------------------------------------------ -/

/-- C8: creating a connection for a key that is already registered first
disconnects the existing connection exactly once and removes the entry,
and only then registers the new connection; afterwards the registry maps
the key to the new connection (the map model makes one entry per key an
invariant). -/
theorem registry_replace_semantics {σ : Type} [DecidableEq σ]
    (reg : String → Option σ) (key : String) (old fresh : σ)
    (h : reg key = some old) :
    (createConnection reg key fresh).2
        = [RegAction.disconnectTransport old, RegAction.removeEntry key,
           RegAction.registerEntry key fresh]
      ∧ (createConnection reg key fresh).2.count (RegAction.disconnectTransport old) = 1
      ∧ (createConnection reg key fresh).1 key = some fresh := by
  unfold createConnection
  rw [h]
  refine ⟨rfl, ?_, ?_⟩
  · dsimp only
    simp [List.count_cons]
  · dsimp only
    rw [if_pos rfl]

/-- A registry holding one connection under the canonical key. -/
def regWitness : String → Option ℕ :=
  fun k => if k = connectionKey "192.168.1.1" 28082 then some 0 else none

/-- C8 witness: replacing the registered connection 0 under
"192.168.1.1:28082" with connection 1. -/
theorem registry_replace_semantics_witness :
    (regWitness (connectionKey "192.168.1.1" 28082) = some 0)
    ∧ ((createConnection regWitness (connectionKey "192.168.1.1" 28082) 1).2
          = [RegAction.disconnectTransport 0,
             RegAction.removeEntry (connectionKey "192.168.1.1" 28082),
             RegAction.registerEntry (connectionKey "192.168.1.1" 28082) 1]
        ∧ (createConnection regWitness (connectionKey "192.168.1.1" 28082) 1).2.count
              (RegAction.disconnectTransport 0) = 1
        ∧ (createConnection regWitness (connectionKey "192.168.1.1" 28082) 1).1
            (connectionKey "192.168.1.1" 28082) = some 1) :=
  ⟨by simp [regWitness],
   registry_replace_semantics regWitness (connectionKey "192.168.1.1" 28082) 0 1
     (by simp [regWitness])⟩

/- ------------------------------------------------------------------ -/
/- Claim C10: constructor validation and initial state. -/
/- ------------------------------------------------------------------ -/

/-- A config in which every required field is present, but steamId is the
(falsy) empty string. -/
def falsySteamConfig : AppConfig :=
  { steamId := some ""
    playerToken := some 1234567890
    server := some { ip := some "192.168.1.1", port := some 28082 }
    reconnect := none }

/-- C10 counterexample: a config that lacks none of steamId, playerToken,
server, server.ip, server.port — every field is present — still makes the
constructor throw, because the present steamId is the empty string and
the source validates with the JavaScript truthiness test !config.steamId.
So construction succeeding for every config satisfying the presence
requirements fails. -/
theorem constructor_falsy_field_counterexample :
    (falsySteamConfig.steamId.isSome = true
      ∧ falsySteamConfig.playerToken.isSome = true
      ∧ falsySteamConfig.server.isSome = true
      ∧ (falsySteamConfig.server.getD { ip := none, port := none }).ip.isSome = true
      ∧ (falsySteamConfig.server.getD { ip := none, port := none }).port.isSome = true)
    ∧ RustPlusConnection.create (some falsySteamConfig) = Except.error errRequiredConfig := by
  exact ⟨⟨rfl, rfl, rfl, rfl, rfl⟩, rfl⟩

/-- C10 (amended): a config lacking steamId, playerToken or server — or
presenting any of them as a falsy value — throws the required-config
error before any state is created; a config whose server lacks ip or port
(the other fields being truthy) throws the server-config error; and for
every config whose five required fields are present and truthy
(non-empty strings, non-zero numbers) construction succeeds and yields
the idle connection: not connected, zero reconnect attempts, no
intentional close, no pending timer, empty entity-type cache, reconnect
settings merged over the defaults. -/
theorem constructor_validation :
    (RustPlusConnection.create none = Except.error errRequiredConfig)
    ∧ (∀ c : AppConfig,
        c.steamId = none ∨ c.playerToken = none ∨ c.server = none →
        RustPlusConnection.create (some c) = Except.error errRequiredConfig)
    ∧ (∀ (c : AppConfig) (srv : ServerConfig),
        c.server = some srv → (srv.ip = none ∨ srv.port = none) →
        jsFalsyStr c.steamId = false → jsFalsyNum c.playerToken = false →
        RustPlusConnection.create (some c) = Except.error errServerConfig)
    ∧ (∀ (c : AppConfig) (srv : ServerConfig) (sid : String) (tok : ℤ)
          (ipa : String) (prt : ℤ),
        c.steamId = some sid → sid ≠ "" →
        c.playerToken = some tok → tok ≠ 0 →
        c.server = some srv →
        srv.ip = some ipa → ipa ≠ "" →
        srv.port = some prt → prt ≠ 0 →
        RustPlusConnection.create (some c)
          = Except.ok
              { steamId := sid, playerToken := tok, serverIp := ipa, serverPort := prt,
                reconnectCfg := mergedReconnect c.reconnect,
                state := initialConnState, entityTypeCache := [] })
    ∧ (initialConnState.isConnected = false ∧ initialConnState.reconnectAttempt = 0
        ∧ initialConnState.intentionalClose = false
        ∧ initialConnState.timerPending = false) := by
  refine ⟨rfl, ?_, ?_, ?_, ⟨rfl, rfl, rfl, rfl⟩⟩
  · intro c h
    have hcond : (jsFalsyStr c.steamId || jsFalsyNum c.playerToken || c.server.isNone)
        = true := by
      rcases h with h | h | h <;> simp [h, jsFalsyStr, jsFalsyNum]
    simp only [RustPlusConnection.create]
    rw [if_pos hcond]
  · intro c srv hs hip hfs hfn
    have hcond : (jsFalsyStr c.steamId || jsFalsyNum c.playerToken || c.server.isNone)
        = false := by
      rw [hfs, hfn, hs]
      rfl
    simp only [RustPlusConnection.create]
    rw [if_neg (by rw [hcond]; exact Bool.false_ne_true)]
    rw [hs]
    dsimp only
    have hcond2 : (jsFalsyStr srv.ip || jsFalsyNum srv.port) = true := by
      rcases hip with h | h <;> simp [h, jsFalsyStr, jsFalsyNum]
    rw [if_pos hcond2]
  · intro c srv sid tok ipa prt hsteam hsid htok htokne hserver hip hipne hport hprtne
    have h1 : jsFalsyStr c.steamId = false := by
      rw [hsteam]
      simp [jsFalsyStr, hsid]
    have h2 : jsFalsyNum c.playerToken = false := by
      rw [htok]
      simp [jsFalsyNum, htokne]
    have hcond : (jsFalsyStr c.steamId || jsFalsyNum c.playerToken || c.server.isNone)
        = false := by
      rw [h1, h2, hserver]
      rfl
    simp only [RustPlusConnection.create]
    rw [if_neg (by rw [hcond]; exact Bool.false_ne_true)]
    rw [hserver]
    dsimp only
    have hcond2 : (jsFalsyStr srv.ip || jsFalsyNum srv.port) = false := by
      rw [hip, hport]
      simp [jsFalsyStr, jsFalsyNum, hipne, hprtne]
    rw [if_neg (by rw [hcond2]; exact Bool.false_ne_true)]
    rw [hsteam, htok, hip, hport]
    rfl

/-- A config with every required field present and truthy. -/
def validConfig : AppConfig :=
  { steamId := some "76561198012345678"
    playerToken := some 1234567890
    server := some { ip := some "192.168.1.1", port := some 28082 }
    reconnect := none }

/-- C10 witness: the valid example config constructs successfully into
the idle connection with default reconnect settings. -/
theorem constructor_validation_witness :
    (validConfig.steamId = some "76561198012345678"
      ∧ validConfig.playerToken = some 1234567890
      ∧ validConfig.server = some { ip := some "192.168.1.1", port := some 28082 }
      ∧ ("76561198012345678" : String) ≠ "" ∧ (1234567890 : ℤ) ≠ 0
      ∧ ("192.168.1.1" : String) ≠ "" ∧ (28082 : ℤ) ≠ 0)
    ∧ RustPlusConnection.create (some validConfig)
        = Except.ok
            { steamId := "76561198012345678", playerToken := 1234567890,
              serverIp := "192.168.1.1", serverPort := 28082,
              reconnectCfg := mergedReconnect validConfig.reconnect,
              state := initialConnState, entityTypeCache := [] } :=
  ⟨⟨rfl, rfl, rfl, by decide, by decide, by decide, by decide⟩,
   constructor_validation.2.2.2.1 validConfig
     { ip := some "192.168.1.1", port := some 28082 }
     "76561198012345678" 1234567890 "192.168.1.1" 28082
     rfl (by decide) rfl (by decide) rfl rfl (by decide) rfl (by decide)⟩
